import Mathlib

/-!
Shallow embedding of the screwdriver-notifications-slack plugin
(`src/index.js`).  The `_notify` method receives a `buildData` object,
validates it against `SCHEMA_BUILD_DATA` (swallowing validation errors),
checks the empty-settings gate, normalizes `settings.slack` (mutating the
caller's object in place), filters by status, renders a Slack message and
finally calls the transport `slacker(token, channels, message)`.

JavaScript `undefined` for an absent field is modelled with `Option`;
dereferencing a field of an absent object (a `TypeError` in JavaScript,
which `_notify` would let propagate) is modelled by the `crashed` outcome.
String values are modelled with Lean `String` (characters standing for the
JavaScript string elements).
-/

namespace NotificationsSlack

/-- The value stored under the `slack` key of `settings`: `_notify`
distinguishes a plain channel string, an array of channel strings, and a
structured object `{channels, statuses, minimized}` (each key optional in
`SCHEMA_SLACK_SETTINGS`). -/
inductive SlackVal where
  | str (s : String)
  | list (l : List String)
  | struct (channels : Option (List String)) (statuses : Option (List String))
      (minimized : Option Bool)
deriving DecidableEq, Repr

/-- The `settings` object.  `SCHEMA_SLACK_SETTINGS` is `.unknown(true)`, so
besides the `slack` key it may carry arbitrary further keys; only their
names matter (for `Object.keys(settings).length`). -/
structure SettingsObj where
  slack : Option SlackVal
  extraKeys : List String
deriving DecidableEq, Repr

/-- `pipeline.scmRepo` — only its `name` is used. -/
structure ScmRepo where
  name : Option String
deriving DecidableEq, Repr

/-- The `pipeline` field of the build data. -/
structure PipelineData where
  scmRepo : Option ScmRepo
deriving DecidableEq, Repr

/-- The `build` field of the build data; `id` is a Joi-validated integer. -/
structure BuildInfo where
  id : Int
deriving DecidableEq, Repr

/-- `event.commit` — message and url, each possibly absent (the schema
constrains `event` only to be an object, nothing inside it). -/
structure CommitData where
  message : Option String
  url : Option String
deriving DecidableEq, Repr

/-- The `event` field of the build data. -/
structure EventData where
  sha : Option String
  commit : Option CommitData
  causeMessage : Option String
deriving DecidableEq, Repr

/-- The `buildData` argument of `_notify`.  Every top-level field may be
absent; `SCHEMA_BUILD_DATA` decides which absences are rejected. -/
structure BuildData where
  settings : Option SettingsObj
  status : Option String
  pipeline : Option PipelineData
  jobName : Option String
  build : Option BuildInfo
  event : Option EventData
  buildLink : Option String
deriving DecidableEq, Repr

/-- One entry of the `fields` array of a minimized attachment. -/
structure AttachmentField where
  title : String
  value : String
  short : Bool
deriving DecidableEq, Repr

/-- A Slack attachment as built by `_notify` (minimized mode fills
`fields`, full mode fills `title`/`title_link`/`text`). -/
structure Attachment where
  fallback : String
  color : Option String
  title : Option String
  title_link : Option String
  text : Option String
  fields : Option (List AttachmentField)
deriving DecidableEq, Repr

/-- The `slackMessage` object handed to the transport: header string plus
attachment list. -/
structure SlackMessage where
  message : String
  attachments : List Attachment
deriving DecidableEq, Repr

/-- The notifier's own config (`SCHEMA_SLACK_CONFIG`): the credential
token. -/
structure SlackConfig where
  token : String
deriving DecidableEq, Repr

/-- Observable outcome of one `_notify` call: silent return, an uncaught
`TypeError` thrown while rendering, or exactly one call
`slacker(token, channels, msg)` to the transport. -/
inductive NotifyResult where
  | skipped
  | crashed
  | dispatched (token : String) (channels : Option (List String)) (msg : SlackMessage)
deriving DecidableEq, Repr

/-! ## Static lookup tables (src/index.js lines 7-22) -/

/-- `COLOR_MAP`; lookup of a key outside the map yields JavaScript
`undefined`, i.e. `none`. -/
def COLOR_MAP : String → Option String
  | "SUCCESS" => some "good"
  | "FAILURE" => some "danger"
  | "ABORTED" => some "danger"
  | "RUNNING" => some "#0F69FF"
  | "QUEUED" => some "#0F69FF"
  | _ => none

/-- `STATUSES_MAP` (status emoji). -/
def STATUSES_MAP : String → Option String
  | "SUCCESS" => some ":sunny:"
  | "FAILURE" => some ":umbrella:"
  | "ABORTED" => some ":cloud:"
  | "RUNNING" => some ":runner:"
  | "QUEUED" => some ":cyclone:"
  | _ => none

/-- `DEFAULT_STATUSES = ['FAILURE']`. -/
def DEFAULT_STATUSES : List String := ["FAILURE"]

/-! ## Joi validation (src/index.js lines 23-60)

`Joi.string()` rejects the empty string; `SCHEMA_STATUS` additionally
restricts to the keys of `COLOR_MAP`; `SCHEMA_SLACK_CHANNELS` requires a
non-empty array of channel strings; inside the structured `slack`
alternative every key (`channels`, `statuses`, `minimized`) is optional and
`statuses` has `.min(0)`.  In `SCHEMA_BUILD_DATA`, `settings`, `status` and
`pipeline` (with `scmRepo.name`) are `.required()`, while `jobName`,
`build`, `event` and `buildLink` are NOT marked required. -/

/-- `Joi.string()`: a string value, not allowed to be empty. -/
def joiNonEmptyStr (s : String) : Bool := !(s == "")

/-- `SCHEMA_STATUS`: valid status enum values (keys of `COLOR_MAP`). -/
def validStatusStr (s : String) : Bool :=
  s == "SUCCESS" || s == "FAILURE" || s == "ABORTED" || s == "RUNNING" || s == "QUEUED"

/-- `SCHEMA_SLACK_CHANNELS`: at least one channel, each a non-empty string. -/
def validChannels (l : List String) : Bool :=
  decide (1 ≤ l.length) && l.all joiNonEmptyStr

/-- Whether a `slack` value matches one of the three alternatives of
`SCHEMA_SLACK_SETTINGS`. -/
def validSlackVal : SlackVal → Bool
  | .str s => joiNonEmptyStr s
  | .list l => validChannels l
  | .struct ch st _ =>
      (match ch with
       | none => true
       | some l => validChannels l) &&
      (match st with
       | none => true
       | some sts => sts.all validStatusStr)

/-- `SCHEMA_SLACK_SETTINGS`: the `slack` key is required. -/
def validSettings (s : SettingsObj) : Bool :=
  match s.slack with
  | none => false
  | some sv => validSlackVal sv

/-- `SCHEMA_BUILD_DATA` acceptance.  `build` (when present its `id` is an
integer, which the typed model guarantees) and `event` (just
`Joi.object()`) impose no further checks; `buildLink` and `jobName` are
optional strings. -/
def validBuildData (bd : BuildData) : Bool :=
  (match bd.settings with
   | none => false
   | some s => validSettings s) &&
  (match bd.status with
   | none => false
   | some st => validStatusStr st) &&
  (match bd.pipeline with
   | none => false
   | some p =>
     match p.scmRepo with
     | none => false
     | some r =>
       match r.name with
       | none => false
       | some n => joiNonEmptyStr n) &&
  (match bd.jobName with
   | none => true
   | some j => joiNonEmptyStr j) &&
  (match bd.buildLink with
   | none => true
   | some l => joiNonEmptyStr l)

/-- `Object.keys(settings).length`. -/
def settingsKeyCount (s : SettingsObj) : Nat :=
  (match s.slack with
   | none => 0
   | some _ => 1) + s.extraKeys.length

/-! ## Normalization (src/index.js lines 93-106) -/

/-- The in-place canonicalization of `settings.slack`: a string becomes a
one-element channel list, a list is used as the channel list (both with
`DEFAULT_STATUSES` and `minimized: false`); a structured object only has
`statuses` filled with `DEFAULT_STATUSES` when it is `undefined`. -/
def normalizeSlack : SlackVal → SlackVal
  | .str s => .struct (some [s]) (some DEFAULT_STATUSES) (some false)
  | .list l => .struct (some l) (some DEFAULT_STATUSES) (some false)
  | .struct ch none m => .struct ch (some DEFAULT_STATUSES) m
  | .struct ch (some sts) m => .struct ch (some sts) m

/-- JavaScript property read `slack.channels` (`undefined` on a string or
array value). -/
def SlackVal.channels? : SlackVal → Option (List String)
  | .struct ch _ _ => ch
  | _ => none

/-- JavaScript property read `slack.statuses`. -/
def SlackVal.statuses? : SlackVal → Option (List String)
  | .struct _ st _ => st
  | _ => none

/-- JavaScript property read `slack.minimized`. -/
def SlackVal.minimized? : SlackVal → Option Bool
  | .struct _ _ m => m
  | _ => none

/-! ## Rendering (src/index.js lines 111-151) -/

/-- String interpolation of a possibly-`undefined` value:
`` `${undefined}` `` is the string `"undefined"` in JavaScript. -/
def jsStr : Option String → String
  | none => "undefined"
  | some s => s

/-- `s.substring(0, n)` / `s.slice(0, n)`: the first `n` characters. -/
def jsSubstring (s : String) (n : Nat) : String :=
  String.mk (s.data.take n)

/-- The longest prefix of `l` before the first occurrence of `sep`
(the whole of `l` when `sep` does not occur). -/
def takeUntilSub (sep : List Char) : List Char → List Char
  | [] => []
  | c :: rest =>
      if sep.isPrefixOf (c :: rest) then [] else c :: takeUntilSub sep rest

/-- `buildLink.split('/builds')[0]`: the prefix of the build link before
the literal segment `/builds`. -/
def pipelineLinkOf (buildLink : String) : String :=
  String.mk (takeUntilSub "/builds".data buildLink.data)

/-- `cutOff = 150`. -/
def cutOff : Nat := 150

/-- `commitMessage`: a message longer than `cutOff` characters is cut to
the first `cutOff` characters with `'...'` appended; otherwise unchanged. -/
def truncateCommitMessage (m : String) : String :=
  if m.length > cutOff then jsSubstring m cutOff ++ "..." else m

/-- Lines 111-151 of `_notify`: compute `pipelineLink`, `truncatedSha`,
`commitMessage`, then the header `message` and the `attachments` array.
`none` models the uncaught `TypeError` thrown when one of
`buildData.buildLink`, `buildData.event`, `event.sha`, `event.commit`,
`commit.message`, `buildData.pipeline.scmRepo.name` or `buildData.build`
is `undefined` (every one of these is dereferenced on the way to the
dispatch call, in both verbosity modes). -/
def renderSlackMessage (bd : BuildData) (slack : SlackVal) (st : String) :
    Option SlackMessage :=
  match bd.buildLink with
  | none => none
  | some buildLink =>
  match bd.event with
  | none => none
  | some ev =>
  match ev.sha with
  | none => none
  | some sha =>
  match ev.commit with
  | none => none
  | some commit =>
  match commit.message with
  | none => none
  | some rawMsg =>
  match bd.pipeline with
  | none => none
  | some p =>
  match p.scmRepo with
  | none => none
  | some repo =>
  match repo.name with
  | none => none
  | some repoName =>
  match bd.build with
  | none => none
  | some b =>
    let pipelineLink := pipelineLinkOf buildLink
    let truncatedSha := jsSubstring sha 6
    let commitMessage := truncateCommitMessage rawMsg
    let isMinimized := (slack.minimized?).getD false
    let message :=
      if isMinimized then
        "<" ++ pipelineLink ++ "|" ++ repoName ++ "#" ++ jsStr bd.jobName ++
          "> *" ++ st ++ "*"
      else
        "*" ++ st ++ "* " ++ jsStr (STATUSES_MAP st) ++ " <" ++ pipelineLink ++
          "|" ++ repoName ++ " " ++ jsStr bd.jobName ++ ">"
    let attachments :=
      if isMinimized then
        [{ fallback := ""
           color := COLOR_MAP st
           title := none
           title_link := none
           text := none
           fields := some [{ title := "Build"
                             value := "<" ++ buildLink ++ "|#" ++ toString b.id ++ ">"
                             short := true }] }]
      else
        [{ fallback := ""
           color := COLOR_MAP st
           title := some ("#" ++ toString b.id)
           title_link := some buildLink
           text := some (commitMessage ++ " (<" ++ jsStr commit.url ++ "|" ++
             truncatedSha ++ ">)" ++ "\n" ++ jsStr ev.causeMessage)
           fields := none }]
    some { message := message, attachments := attachments }

/-! ## The `_notify` method (src/index.js lines 83-154) -/

/-- `_notify(buildData)` as state-passing: the result is the observable
outcome together with the final state of the caller's `buildData` object
(the source mutates `buildData.settings.slack` during normalization).
Order of steps follows the source: swallowed Joi validation, the
`Object.keys(settings).length === 0` gate, in-place normalization, the
status filter, rendering, and the single `slacker(...)` call. -/
def _notify (config : SlackConfig) (buildData : BuildData) :
    NotifyResult × BuildData :=
  if validBuildData buildData then
    match buildData.settings with
    | none => (NotifyResult.skipped, buildData)
    | some s =>
      if settingsKeyCount s = 0 then (NotifyResult.skipped, buildData)
      else
        match s.slack with
        | none =>
            -- `buildData.settings.slack.statuses` on `undefined`: TypeError
            (NotifyResult.crashed, buildData)
        | some sv =>
            let sv' := normalizeSlack sv
            let buildData' : BuildData :=
              { buildData with settings := some { s with slack := some sv' } }
            match sv'.statuses? with
            | none => (NotifyResult.crashed, buildData')
            | some sts =>
              match buildData'.status with
              | none => (NotifyResult.skipped, buildData')
              | some st =>
                if sts.contains st then
                  match renderSlackMessage buildData' sv' st with
                  | none => (NotifyResult.crashed, buildData')
                  | some msg =>
                      (NotifyResult.dispatched config.token sv'.channels? msg,
                        buildData')
                else (NotifyResult.skipped, buildData')
  else (NotifyResult.skipped, buildData)

/-- The statuses set in force after normalization. -/
def canonicalStatuses (sv : SlackVal) : List String :=
  ((normalizeSlack sv).statuses?).getD []

/-! ## Observers on the outcome of a `_notify` call -/

/-- How many transport calls the outcome contains (0 or 1). -/
def NotifyResult.dispatchCount : NotifyResult → Nat
  | .dispatched _ _ _ => 1
  | _ => 0

/-- The credential token handed to the transport, when dispatched. -/
def NotifyResult.sentToken? : NotifyResult → Option String
  | .dispatched t _ _ => some t
  | _ => none

/-- The channel list handed to the transport, when dispatched. -/
def NotifyResult.sentChannels? : NotifyResult → Option (Option (List String))
  | .dispatched _ ch _ => some ch
  | _ => none

/-- The rendered message handed to the transport, when dispatched. -/
def NotifyResult.sentMessage? : NotifyResult → Option SlackMessage
  | .dispatched _ _ m => some m
  | _ => none

/-! ## Concrete build events used to settle individual claims -/

/-- Schema-valid build data with no `event` field (`event` is not
`.required()` in `SCHEMA_BUILD_DATA`): `_notify` reaches rendering and
throws at `buildData.event.sha`. -/
def bdC1 : BuildData :=
  { settings := some { slack := some (.str "#general"), extraKeys := [] }
    status := some "FAILURE"
    pipeline := some { scmRepo := some { name := some "screwdriver" } }
    jobName := some "main"
    build := some { id := 1 }
    event := none
    buildLink := some "http://sd/pipelines/1/builds/2" }

/-- Schema-valid build data with no `buildLink` field (the schema has
`buildLink: Joi.string()` without `.required()`): `_notify` reaches
rendering and throws at `buildData.buildLink.split('/builds')`. -/
def bdC2 : BuildData :=
  { settings := some { slack := some (.list ["#alpha", "#beta"]), extraKeys := [] }
    status := some "FAILURE"
    pipeline := some { scmRepo := some { name := some "repo-two" } }
    jobName := some "deploy"
    build := some { id := 7 }
    event := some { sha := some "abcdef012345"
                    commit := some { message := some "fix", url := some "http://scm/c" }
                    causeMessage := some "merged" }
    buildLink := none }

/-- Valid build data with shorthand string settings; `_notify` rewrites
`settings.slack` into the canonical structured object in place. -/
def bdC3 : BuildData :=
  { settings := some { slack := some (.str "#mutation-check"), extraKeys := [] }
    status := some "SUCCESS"
    pipeline := some { scmRepo := some { name := some "repo-three" } }
    jobName := none
    build := none
    event := none
    buildLink := none }

/-- Valid build data whose status RUNNING is outside the canonical
statuses list. -/
def bdC5 : BuildData :=
  { settings := some { slack := some (.struct (some ["#chan5"]) (some ["FAILURE"]) none)
                       extraKeys := [] }
    status := some "RUNNING"
    pipeline := some { scmRepo := some { name := some "repo-five" } }
    jobName := some "main"
    build := some { id := 5 }
    event := some { sha := some "5555555555"
                    commit := some { message := some "m5", url := some "u5" }
                    causeMessage := some "c5" }
    buildLink := some "http://sd/pipelines/5/builds/55" }

/-- Schema-valid build data passing every gate (status SUCCESS is
configured) but with no `build` field: rendering throws at
`buildData.build.id` before the transport is ever called. -/
def bdC7 : BuildData :=
  { settings := some { slack := some (.struct (some ["#ci"]) (some ["SUCCESS"]) (some true))
                       extraKeys := [] }
    status := some "SUCCESS"
    pipeline := some { scmRepo := some { name := some "repo-seven" } }
    jobName := some "main"
    build := none
    event := some { sha := some "0123456789"
                    commit := some { message := some "feat", url := some "http://scm/7" }
                    causeMessage := some "c7" }
    buildLink := some "http://sd/pipelines/7/builds/9" }

/-- Fully populated valid build data used as the dispatch witness. -/
def bdFullW : BuildData :=
  { settings := some { slack := some (.struct (some ["#a", "#b"]) (some ["SUCCESS"]) (some true))
                       extraKeys := [] }
    status := some "SUCCESS"
    pipeline := some { scmRepo := some { name := some "d2lam/mytest" } }
    jobName := some "main"
    build := some { id := 12 }
    event := some { sha := some "1234567890abcdef"
                    commit := some { message := some "fixing a bug"
                                     url := some "http://scm/commit/123456" }
                    causeMessage := some "merged by d2lam" }
    buildLink := some "http://thelink/pipelines/12/builds/1234" }

/-- Fully populated valid build data (non-minimized, string settings) used
as the render-format witness. -/
def bdC8w : BuildData :=
  { settings := some { slack := some (.str "#general"), extraKeys := [] }
    status := some "FAILURE"
    pipeline := some { scmRepo := some { name := some "org/repo8" } }
    jobName := some "publish"
    build := some { id := 88 }
    event := some { sha := some "8888888888abcdef"
                    commit := some { message := some "eighth change"
                                     url := some "http://scm/commit/888888" }
                    causeMessage := some "merged by user8" }
    buildLink := some "http://sd/pipelines/8/builds/88" }

/-- Valid build data whose structured settings carry `statuses: []`. -/
def bdC10 : BuildData :=
  { settings := some { slack := some (.struct (some ["#optout"]) (some []) none)
                       extraKeys := [] }
    status := some "FAILURE"
    pipeline := some { scmRepo := some { name := some "repo-ten" } }
    jobName := some "main"
    build := some { id := 10 }
    event := some { sha := some "tttttttttt"
                    commit := some { message := some "m10", url := some "u10" }
                    causeMessage := some "c10" }
    buildLink := some "http://sd/pipelines/10/builds/100" }

/-! ## Helper lemmas -/

/-- After normalization the `statuses` field is always present and equals
the canonical statuses set. -/
theorem statuses_of_normalizeSlack (sv : SlackVal) :
    (normalizeSlack sv).statuses? = some (canonicalStatuses sv) := by
  cases sv with
  | str s => rfl
  | list l => rfl
  | struct ch st m => cases st <;> rfl

/-- Normalization is idempotent on the `slack` value. -/
theorem normalizeSlack_idem (sv : SlackVal) :
    normalizeSlack (normalizeSlack sv) = normalizeSlack sv := by
  cases sv with
  | str s => rfl
  | list l => rfl
  | struct ch st m => cases st <;> rfl

/-- Normalization maps schema-accepted `slack` values to schema-accepted
ones. -/
theorem validSlackVal_normalizeSlack (sv : SlackVal) (h : validSlackVal sv = true) :
    validSlackVal (normalizeSlack sv) = true := by
  cases sv with
  | str s =>
      have hs : ¬s = "" := by simpa [validSlackVal, joiNonEmptyStr] using h
      simp only [validSlackVal, normalizeSlack, validChannels, DEFAULT_STATUSES] at *
      simp [hs, joiNonEmptyStr, validStatusStr]
  | list l =>
      simp only [validSlackVal, normalizeSlack, DEFAULT_STATUSES] at *
      simp [h, validStatusStr]
  | struct ch st m =>
      cases st with
      | none =>
          simp only [validSlackVal, normalizeSlack, DEFAULT_STATUSES] at *
          simp [h, validStatusStr]
      | some sts => simpa [validSlackVal, normalizeSlack] using h

/-! ## Claim theorems -/

/-- C4: normalization of each legal settings shape under the `slack` key —
a channel string `s`, a channel list `L`, or a structured object — yields
the canonical object whose channels are `[s]` (resp. `L`, resp. the given
channels, order preserved), whose statuses are the given ones when present
and `DEFAULT_STATUSES = ["FAILURE"]` when absent, and whose minimized flag
is `false` in the string and list cases. -/
theorem normalization_canonical (s : String) (L : List String)
    (ch : Option (List String)) (st : Option (List String)) (m : Option Bool) :
    normalizeSlack (SlackVal.str s) =
      SlackVal.struct (some [s]) (some DEFAULT_STATUSES) (some false) ∧
    normalizeSlack (SlackVal.list L) =
      SlackVal.struct (some L) (some DEFAULT_STATUSES) (some false) ∧
    normalizeSlack (SlackVal.struct ch st m) =
      SlackVal.struct ch (some (st.getD DEFAULT_STATUSES)) m ∧
    DEFAULT_STATUSES = ["FAILURE"] := by
  refine ⟨rfl, rfl, ?_, rfl⟩
  cases st <;> rfl

/-- C6: a commit message of more than 150 characters is rendered as exactly
its first 150 characters followed by the ellipsis marker `...` (so 153
characters in total); a message of at most 150 characters is passed through
unchanged. -/
theorem commit_message_truncation (m : String) :
    (m.length > 150 →
      truncateCommitMessage m = jsSubstring m 150 ++ "..." ∧
      (truncateCommitMessage m).data = m.data.take 150 ++ ['.', '.', '.'] ∧
      (truncateCommitMessage m).length = 153) ∧
    (m.length ≤ 150 → truncateCommitMessage m = m) := by
  constructor
  · intro h
    have hif : truncateCommitMessage m = jsSubstring m 150 ++ "..." := by
      unfold truncateCommitMessage cutOff
      rw [if_pos h]
    refine ⟨hif, ?_, ?_⟩
    · rw [hif, String.data_append]
      rfl
    · rw [hif]
      have hlen : m.length = m.data.length := rfl
      have h150 : (150 : Nat) ≤ m.data.length := by
        rw [hlen] at h; omega
      simp only [String.length_append, jsSubstring, String.length_mk,
        List.length_take]
      rw [Nat.min_eq_left h150]
      decide
  · intro h
    unfold truncateCommitMessage cutOff
    rw [if_neg (by omega)]

/-- C6 witness: the truncation property evaluated on a concrete 151-character
message and on a concrete short message. -/
theorem commit_message_truncation_witness :
    (truncateCommitMessage (String.mk (List.replicate 151 'a')) =
      jsSubstring (String.mk (List.replicate 151 'a')) 150 ++ "..." ∧
     (truncateCommitMessage (String.mk (List.replicate 151 'a'))).data =
      (String.mk (List.replicate 151 'a')).data.take 150 ++ ['.', '.', '.'] ∧
     (truncateCommitMessage (String.mk (List.replicate 151 'a'))).length = 153) ∧
    truncateCommitMessage "short message" = "short message" :=
  ⟨(commit_message_truncation (String.mk (List.replicate 151 'a'))).1
      (by set_option maxRecDepth 10000 in decide),
   (commit_message_truncation "short message").2 (by decide)⟩

/-- C5: a valid build event whose status is not in the canonical statuses
set obtained after normalization is filtered out: `_notify` dispatches
nothing and raises nothing. -/
theorem notify_status_filtered (config : SlackConfig) (bd : BuildData)
    (s : SettingsObj) (sv : SlackVal) (st : String)
    (hv : validBuildData bd = true)
    (hs : bd.settings = some s) (hsl : s.slack = some sv)
    (hst : bd.status = some st) (hmem : st ∉ canonicalStatuses sv) :
    (_notify config bd).1 = NotifyResult.skipped := by
  have hk : ¬settingsKeyCount s = 0 := by simp [settingsKeyCount, hsl]
  have hcon : (canonicalStatuses sv).contains st = false := by
    simpa using hmem
  unfold _notify
  simp only [hv, hs, hsl, hk, statuses_of_normalizeSlack, hst, hcon,
    if_true, if_false, Bool.false_eq_true, ite_true, ite_false]

/-- C5 witness: a RUNNING build with configured statuses `["FAILURE"]` is
skipped. -/
theorem notify_status_filtered_witness :
    (_notify { token := "t5" } bdC5).1 = NotifyResult.skipped :=
  notify_status_filtered { token := "t5" } bdC5
    { slack := some (.struct (some ["#chan5"]) (some ["FAILURE"]) none), extraKeys := [] }
    (.struct (some ["#chan5"]) (some ["FAILURE"]) none) "RUNNING"
    (by decide) rfl rfl rfl (by decide)

/-- C10: structured slack settings with `statuses: []` — a shape the schema
accepts, since `SCHEMA_STATUSES` is `.min(0)` — opt out of every
notification: `_notify` never dispatches, whatever the build status, because
`DEFAULT_STATUSES` is substituted only when `statuses` is `undefined`, never
when it is present but empty. -/
theorem notify_empty_statuses_opt_out (config : SlackConfig) (bd : BuildData)
    (s : SettingsObj) (ch : Option (List String)) (m : Option Bool)
    (hs : bd.settings = some s)
    (hsl : s.slack = some (SlackVal.struct ch (some []) m)) :
    (_notify config bd).1 = NotifyResult.skipped ∧
    normalizeSlack (SlackVal.struct ch (some []) m) =
      SlackVal.struct ch (some []) m := by
  refine ⟨?_, rfl⟩
  by_cases hv : validBuildData bd = true
  · have hk : ¬settingsKeyCount s = 0 := by simp [settingsKeyCount, hsl]
    unfold _notify
    simp only [hv, hs, hsl, hk, if_true, if_false, ite_true, ite_false]
    cases hst : bd.status with
    | none => simp [normalizeSlack, SlackVal.statuses?]
    | some st => simp [normalizeSlack, SlackVal.statuses?]
  · unfold _notify
    simp [hv]

/-- C10 witness: a fully valid FAILURE build whose settings carry
`statuses: []` is accepted by the schema and skipped. -/
theorem notify_empty_statuses_opt_out_witness :
    validBuildData bdC10 = true ∧
    (_notify { token := "t10" } bdC10).1 = NotifyResult.skipped :=
  ⟨by decide,
   (notify_empty_statuses_opt_out { token := "t10" } bdC10
      { slack := some (.struct (some ["#optout"]) (some []) none), extraKeys := [] }
      (some ["#optout"]) none rfl rfl).1⟩

/-- C1 (contradicted by the code): `bdC1` is accepted by
`SCHEMA_BUILD_DATA` (the schema does not mark `event` as required), passes
every gate, and `_notify` then throws an uncaught `TypeError` at
`buildData.event.sha` inside rendering — an error that is neither swallowed
nor raised by the transport, which is never reached. -/
theorem notify_rendering_raises_after_validation :
    validBuildData bdC1 = true ∧
    (_notify { token := "t1" } bdC1).1 = NotifyResult.crashed :=
  ⟨by decide, by decide⟩

/-- C2 (contradicted by the code): `bdC2` has valid settings and status and
no `buildLink`, yet it is NOT stopped at the validation gate — the schema
has `buildLink: Joi.string()` without `.required()` — and `_notify` throws
an uncaught `TypeError` at `buildData.buildLink.split('/builds')` instead
of aborting silently (no dispatch happens, but an error does reach the
caller). -/
theorem notify_missing_buildLink_not_rejected :
    validBuildData bdC2 = true ∧
    (_notify { token := "t2" } bdC2).1 = NotifyResult.crashed :=
  ⟨by decide, by decide⟩

/-- Every exit of `_notify` leaves the caller's object either untouched or
with exactly `settings.slack` replaced by its normalized form. -/
theorem notify_state (config : SlackConfig) (bd : BuildData) :
    (_notify config bd).2 = bd ∨
    ∃ s sv, bd.settings = some s ∧ s.slack = some sv ∧
      (_notify config bd).2 =
        { bd with settings := some { s with slack := some (normalizeSlack sv) } } := by
  simp only [_notify]
  split
  · split
    · exact Or.inl rfl
    · next s heq =>
      split
      · exact Or.inl rfl
      · split
        · exact Or.inl rfl
        · next sv hsl =>
          split
          · exact Or.inr ⟨s, sv, heq, hsl, rfl⟩
          · split
            · exact Or.inr ⟨s, sv, heq, hsl, rfl⟩
            · split
              · split
                · exact Or.inr ⟨s, sv, heq, hsl, rfl⟩
                · exact Or.inr ⟨s, sv, heq, hsl, rfl⟩
              · exact Or.inr ⟨s, sv, heq, hsl, rfl⟩
  · exact Or.inl rfl

/-- C3 counterexample: on `bdC3` (shorthand string settings) `_notify`
does NOT leave the caller's event object unchanged — normalization writes
the canonical structured object back into `buildData.settings.slack`. -/
theorem notify_mutates_caller_event :
    (_notify { token := "t3" } bdC3).2 ≠ bdC3 := by decide

/-- C3 (amended): a `_notify` call leaves every field of the caller's
event object unchanged except `settings.slack`, which is either untouched
(when a gate fails before normalization) or replaced in place by its
canonical normalized value. -/
theorem notify_mutates_only_slack_settings (config : SlackConfig) (bd : BuildData) :
    ((_notify config bd).2.status = bd.status ∧
     (_notify config bd).2.pipeline = bd.pipeline ∧
     (_notify config bd).2.jobName = bd.jobName ∧
     (_notify config bd).2.build = bd.build ∧
     (_notify config bd).2.event = bd.event ∧
     (_notify config bd).2.buildLink = bd.buildLink) ∧
    ((_notify config bd).2.settings = bd.settings ∨
     (_notify config bd).2.settings =
       bd.settings.map fun s => { s with slack := s.slack.map normalizeSlack }) := by
  rcases notify_state config bd with h | ⟨s, sv, hs, hsl, h⟩
  · rw [h]
    exact ⟨⟨rfl, rfl, rfl, rfl, rfl, rfl⟩, Or.inl rfl⟩
  · rw [h]
    refine ⟨⟨rfl, rfl, rfl, rfl, rfl, rfl⟩, Or.inr ?_⟩
    rw [hs]
    simp [hsl]

/-- C7 counterexample: `bdC7` is schema-valid, its settings are non-empty,
its status SUCCESS is in the canonical statuses, yet `_notify` does not
invoke the transport at all — it crashes at `buildData.build.id` while
building the attachment, because the schema never required `build`. -/
theorem notify_gates_passed_without_dispatch :
    validBuildData bdC7 = true ∧
    settingsKeyCount { slack := some (.struct (some ["#ci"]) (some ["SUCCESS"]) (some true))
                       extraKeys := [] } ≠ 0 ∧
    "SUCCESS" ∈ canonicalStatuses
      (SlackVal.struct (some ["#ci"]) (some ["SUCCESS"]) (some true)) ∧
    (_notify { token := "t7" } bdC7).1 = NotifyResult.crashed :=
  ⟨by decide, by decide, by decide, by decide⟩

/-- A schema-valid event always carries `pipeline.scmRepo.name`. -/
theorem validBuildData_pipeline (bd : BuildData) (hv : validBuildData bd = true) :
    ∃ p r n, bd.pipeline = some p ∧ p.scmRepo = some r ∧ r.name = some n := by
  unfold validBuildData at hv
  rcases hp : bd.pipeline with _ | p
  · simp only [hp] at hv; simp at hv
  · rcases hr : p.scmRepo with _ | r
    · simp only [hp, hr] at hv; simp at hv
    · rcases hn : r.name with _ | n
      · simp only [hp, hr, hn] at hv; simp at hv
      · exact ⟨p, r, n, rfl, hr, hn⟩

/-- When the event carries every field rendering dereferences, the render
step produces a message (no `TypeError`). -/
theorem renderSlackMessage_isSome (bd : BuildData) (slack : SlackVal) (st : String)
    (bl : String) (ev : EventData) (sha : String) (c : CommitData) (cmsg : String)
    (p : PipelineData) (r : ScmRepo) (repoName : String) (b : BuildInfo)
    (hbl : bd.buildLink = some bl) (hev : bd.event = some ev)
    (hsha : ev.sha = some sha) (hc : ev.commit = some c) (hm : c.message = some cmsg)
    (hp : bd.pipeline = some p) (hr : p.scmRepo = some r) (hn : r.name = some repoName)
    (hb : bd.build = some b) :
    (renderSlackMessage bd slack st).isSome = true := by
  unfold renderSlackMessage
  simp only [hbl, hev, hsha, hc, hm, hp, hr, hn, hb, Option.isSome_some]

/-- C7 (amended): a valid event that passes the validation, empty-settings
and status gates AND carries the fields rendering dereferences (`buildLink`,
`event` with `sha` and `commit.message`, `build`) causes exactly one
transport invocation, with the credential token, the entire canonical
channel list (one call, list order preserved) and the rendered message. -/
theorem notify_dispatches_once (config : SlackConfig) (bd : BuildData)
    (s : SettingsObj) (sv : SlackVal) (st : String)
    (bl : String) (ev : EventData) (sha : String) (c : CommitData) (cmsg : String)
    (b : BuildInfo)
    (hv : validBuildData bd = true)
    (hs : bd.settings = some s) (hsl : s.slack = some sv)
    (hst : bd.status = some st) (hmem : st ∈ canonicalStatuses sv)
    (hbl : bd.buildLink = some bl) (hev : bd.event = some ev)
    (hsha : ev.sha = some sha) (hc : ev.commit = some c) (hm : c.message = some cmsg)
    (hb : bd.build = some b) :
    (_notify config bd).1.dispatchCount = 1 ∧
    (_notify config bd).1.sentToken? = some config.token ∧
    (_notify config bd).1.sentChannels? = some ((normalizeSlack sv).channels?) ∧
    (_notify config bd).1.sentMessage? =
      renderSlackMessage
        { bd with settings := some { s with slack := some (normalizeSlack sv) } }
        (normalizeSlack sv) st := by
  obtain ⟨p, r, n, hp, hr, hn⟩ := validBuildData_pipeline bd hv
  have hrend : (renderSlackMessage
      { bd with settings := some { s with slack := some (normalizeSlack sv) } }
      (normalizeSlack sv) st).isSome = true :=
    renderSlackMessage_isSome _ _ st bl ev sha c cmsg p r n b hbl hev hsha hc hm hp hr hn hb
  obtain ⟨msg, hmsg⟩ := Option.isSome_iff_exists.mp hrend
  have hmsg1 := hmsg
  rw [hst] at hmsg1
  have hk : ¬settingsKeyCount s = 0 := by simp [settingsKeyCount, hsl]
  have hcon : (canonicalStatuses sv).contains st = true := by simpa using hmem
  have hnot : _notify config bd =
      (NotifyResult.dispatched config.token ((normalizeSlack sv).channels?) msg,
       { bd with settings := some { s with slack := some (normalizeSlack sv) } }) := by
    unfold _notify
    simp only [hv, hs, hsl, hk, statuses_of_normalizeSlack, hst, hcon, hmsg1,
      if_true, ite_true, ite_false]
  rw [hnot, hmsg]
  exact ⟨rfl, rfl, rfl, rfl⟩

/-- C7 witness: the spec scenario — structured settings
`{channels: ["#a","#b"], statuses: ["SUCCESS"], minimized: true}` on a
SUCCESS build — yields one transport call carrying the token, both channels
together, the minimized header and the single-field "Build" attachment. -/
theorem notify_dispatches_once_witness :
    (_notify { token := "tw" } bdFullW).1.dispatchCount = 1 ∧
    (_notify { token := "tw" } bdFullW).1.sentToken? = some "tw" ∧
    (_notify { token := "tw" } bdFullW).1.sentChannels? = some (some ["#a", "#b"]) ∧
    (_notify { token := "tw" } bdFullW).1.sentMessage? =
      some { message := "<http://thelink/pipelines/12|d2lam/mytest#main> *SUCCESS*"
             attachments := [{ fallback := ""
                               color := some "good"
                               title := none
                               title_link := none
                               text := none
                               fields := some [{ title := "Build"
                                                 value := "<http://thelink/pipelines/12/builds/1234|#12>"
                                                 short := true }] }] } :=
  notify_dispatches_once { token := "tw" } bdFullW
    { slack := some (.struct (some ["#a", "#b"]) (some ["SUCCESS"]) (some true))
      extraKeys := [] }
    (.struct (some ["#a", "#b"]) (some ["SUCCESS"]) (some true)) "SUCCESS"
    "http://thelink/pipelines/12/builds/1234"
    { sha := some "1234567890abcdef"
      commit := some { message := some "fixing a bug", url := some "http://scm/commit/123456" }
      causeMessage := some "merged by d2lam" }
    "1234567890abcdef"
    { message := some "fixing a bug", url := some "http://scm/commit/123456" }
    "fixing a bug" { id := 12 }
    (by decide) rfl rfl rfl (by decide) rfl rfl rfl rfl rfl rfl

/-- C8: the render step of an event that reaches rendering, with
`pipelineLink` the prefix of `buildLink` before the literal segment
`/builds`: when minimized the header is
`<pipelineLink|repoName#jobName> *STATUS*` and the attachment is one field
titled "Build" linking the build number to the build link, with the status
color; otherwise the header is `*STATUS* <emoji> <pipelineLink|repoName
jobName>` with the emoji from the status emoji map, and the attachment has
title `#buildId` linked to `buildLink` and a body of commit message,
6-character sha linked to the commit url, a newline, and the cause
message. -/
theorem render_format (bd : BuildData) (slack : SlackVal) (st : String)
    (bl : String) (ev : EventData) (sha : String) (c : CommitData) (cmsg : String)
    (p : PipelineData) (r : ScmRepo) (repoName : String) (b : BuildInfo)
    (hbl : bd.buildLink = some bl) (hev : bd.event = some ev)
    (hsha : ev.sha = some sha) (hc : ev.commit = some c) (hm : c.message = some cmsg)
    (hp : bd.pipeline = some p) (hr : p.scmRepo = some r) (hn : r.name = some repoName)
    (hb : bd.build = some b) :
    renderSlackMessage bd slack st =
      some (if (slack.minimized?).getD false then
        { message := "<" ++ pipelineLinkOf bl ++ "|" ++ repoName ++ "#" ++
            jsStr bd.jobName ++ "> *" ++ st ++ "*"
          attachments := [{ fallback := ""
                            color := COLOR_MAP st
                            title := none
                            title_link := none
                            text := none
                            fields := some [{ title := "Build"
                                              value := "<" ++ bl ++ "|#" ++ toString b.id ++ ">"
                                              short := true }] }] }
      else
        { message := "*" ++ st ++ "* " ++ jsStr (STATUSES_MAP st) ++ " <" ++
            pipelineLinkOf bl ++ "|" ++ repoName ++ " " ++ jsStr bd.jobName ++ ">"
          attachments := [{ fallback := ""
                            color := COLOR_MAP st
                            title := some ("#" ++ toString b.id)
                            title_link := some bl
                            text := some (truncateCommitMessage cmsg ++ " (<" ++
                              jsStr c.url ++ "|" ++ jsSubstring sha 6 ++ ">)" ++ "\n" ++
                              jsStr ev.causeMessage)
                            fields := none }] }) := by
  unfold renderSlackMessage
  simp only [hbl, hev, hsha, hc, hm, hp, hr, hn, hb]
  cases hmin : (slack.minimized?).getD false <;> simp [hmin]

/-- C8 witness: the render of a concrete non-minimized FAILURE build shows
the emoji header, the linked `#buildId` title and the commit/sha/cause
body. -/
theorem render_format_witness :
    renderSlackMessage bdC8w
        (SlackVal.struct (some ["#general"]) (some ["FAILURE"]) (some false)) "FAILURE" =
      some { message := "*FAILURE* :umbrella: <http://sd/pipelines/8|org/repo8 publish>"
             attachments := [{ fallback := ""
                               color := some "danger"
                               title := some "#88"
                               title_link := some "http://sd/pipelines/8/builds/88"
                               text := some "eighth change (<http://scm/commit/888888|888888>)\nmerged by user8"
                               fields := none }] } :=
  render_format bdC8w
    (SlackVal.struct (some ["#general"]) (some ["FAILURE"]) (some false)) "FAILURE"
    "http://sd/pipelines/8/builds/88"
    { sha := some "8888888888abcdef"
      commit := some { message := some "eighth change", url := some "http://scm/commit/888888" }
      causeMessage := some "merged by user8" }
    "8888888888abcdef"
    { message := some "eighth change", url := some "http://scm/commit/888888" }
    "eighth change"
    { scmRepo := some { name := some "org/repo8" } }
    { name := some "org/repo8" } "org/repo8" { id := 88 }
    rfl rfl rfl rfl rfl rfl rfl rfl rfl

/-- C9: rendering is pure in the embedding (a function of the event data
alone), and the whole `_notify` pipeline is idempotent: re-running it on
the state it leaves behind reproduces the byte-identical header,
attachments and outcome. -/
theorem notify_idempotent (config : SlackConfig) (bd : BuildData) :
    _notify config (_notify config bd).2 = _notify config bd := by
  by_cases hv : validBuildData bd = true
  · rcases hs : bd.settings with _ | s
    · exfalso
      unfold validBuildData at hv
      simp only [hs] at hv
      simp at hv
    · by_cases hk : settingsKeyCount s = 0
      · have h1 : _notify config bd = (NotifyResult.skipped, bd) := by
          unfold _notify
          simp only [hv, hs, hk, ite_true, ite_false, if_true]
        rw [h1]
        exact h1
      · rcases hsl : s.slack with _ | sv
        · exfalso
          unfold validBuildData at hv
          simp only [hs, validSettings, hsl] at hv
          simp at hv
        · have hvs : validSlackVal sv = true := by
            unfold validBuildData at hv
            simp only [hs, Bool.and_eq_true, validSettings, hsl] at hv
            exact hv.1.1.1.1
          have hv' : validBuildData
              { bd with settings := some { s with slack := some (normalizeSlack sv) } } = true := by
            unfold validBuildData at hv ⊢
            simp only [hs, Bool.and_eq_true] at hv
            obtain ⟨⟨⟨⟨hA, hB⟩, hC⟩, hD⟩, hE⟩ := hv
            simp only [Bool.and_eq_true]
            refine ⟨⟨⟨⟨?_, hB⟩, hC⟩, hD⟩, hE⟩
            simp [validSettings, validSlackVal_normalizeSlack sv hvs]
          have hk' : ¬settingsKeyCount { s with slack := some (normalizeSlack sv) } = 0 := by
            simp [settingsKeyCount]
          rcases hst : bd.status with _ | st
          · rw [hst] at hv'
            have h1 : _notify config bd = (NotifyResult.skipped,
                { settings := some { s with slack := some (normalizeSlack sv) }, status := none, pipeline := bd.pipeline, jobName := bd.jobName, build := bd.build, event := bd.event, buildLink := bd.buildLink }) := by
              unfold _notify
              simp only [hv, hs, hk, hsl, statuses_of_normalizeSlack, hst,
                ite_true, ite_false, if_true]
            have h2 : _notify config
                { settings := some { s with slack := some (normalizeSlack sv) }, status := none, pipeline := bd.pipeline, jobName := bd.jobName, build := bd.build, event := bd.event, buildLink := bd.buildLink } =
                (NotifyResult.skipped,
                { settings := some { s with slack := some (normalizeSlack sv) }, status := none, pipeline := bd.pipeline, jobName := bd.jobName, build := bd.build, event := bd.event, buildLink := bd.buildLink }) := by
              unfold _notify
              simp only [hv', hk', normalizeSlack_idem, statuses_of_normalizeSlack,
                ite_true, ite_false, if_true]
            rw [h1]
            exact h2
          · rw [hst] at hv'
            cases hcon : (canonicalStatuses sv).contains st with
            | false =>
                have h1 : _notify config bd = (NotifyResult.skipped,
                    { settings := some { s with slack := some (normalizeSlack sv) }, status := some st, pipeline := bd.pipeline, jobName := bd.jobName, build := bd.build, event := bd.event, buildLink := bd.buildLink }) := by
                  unfold _notify
                  simp only [hv, hs, hk, hsl, statuses_of_normalizeSlack, hst, hcon,
                    Bool.false_eq_true, ite_true, ite_false, if_true, if_false]
                have h2 : _notify config
                    { settings := some { s with slack := some (normalizeSlack sv) }, status := some st, pipeline := bd.pipeline, jobName := bd.jobName, build := bd.build, event := bd.event, buildLink := bd.buildLink } =
                    (NotifyResult.skipped,
                    { settings := some { s with slack := some (normalizeSlack sv) }, status := some st, pipeline := bd.pipeline, jobName := bd.jobName, build := bd.build, event := bd.event, buildLink := bd.buildLink }) := by
                  unfold _notify
                  simp only [hv', hk', normalizeSlack_idem, statuses_of_normalizeSlack, hcon,
                    Bool.false_eq_true, ite_true, ite_false, if_true, if_false]
                rw [h1]
                exact h2
            | true =>
                cases hrend : renderSlackMessage
                    { settings := some { s with slack := some (normalizeSlack sv) }, status := some st, pipeline := bd.pipeline, jobName := bd.jobName, build := bd.build, event := bd.event, buildLink := bd.buildLink }
                    (normalizeSlack sv) st with
                | none =>
                    have h1 : _notify config bd = (NotifyResult.crashed,
                        { settings := some { s with slack := some (normalizeSlack sv) }, status := some st, pipeline := bd.pipeline, jobName := bd.jobName, build := bd.build, event := bd.event, buildLink := bd.buildLink }) := by
                      unfold _notify
                      simp only [hv, hs, hk, hsl, statuses_of_normalizeSlack, hst, hcon,
                        hrend, ite_true, ite_false, if_true]
                    have h2 : _notify config
                        { settings := some { s with slack := some (normalizeSlack sv) }, status := some st, pipeline := bd.pipeline, jobName := bd.jobName, build := bd.build, event := bd.event, buildLink := bd.buildLink } =
                        (NotifyResult.crashed,
                        { settings := some { s with slack := some (normalizeSlack sv) }, status := some st, pipeline := bd.pipeline, jobName := bd.jobName, build := bd.build, event := bd.event, buildLink := bd.buildLink }) := by
                      unfold _notify
                      simp only [hv', hk', normalizeSlack_idem, statuses_of_normalizeSlack,
                        hcon, hrend, ite_true, ite_false, if_true]
                    rw [h1]
                    exact h2
                | some msg =>
                    have h1 : _notify config bd =
                        (NotifyResult.dispatched config.token ((normalizeSlack sv).channels?) msg,
                        { settings := some { s with slack := some (normalizeSlack sv) }, status := some st, pipeline := bd.pipeline, jobName := bd.jobName, build := bd.build, event := bd.event, buildLink := bd.buildLink }) := by
                      unfold _notify
                      simp only [hv, hs, hk, hsl, statuses_of_normalizeSlack, hst, hcon,
                        hrend, ite_true, ite_false, if_true]
                    have h2 : _notify config
                        { settings := some { s with slack := some (normalizeSlack sv) }, status := some st, pipeline := bd.pipeline, jobName := bd.jobName, build := bd.build, event := bd.event, buildLink := bd.buildLink } =
                        (NotifyResult.dispatched config.token ((normalizeSlack sv).channels?) msg,
                        { settings := some { s with slack := some (normalizeSlack sv) }, status := some st, pipeline := bd.pipeline, jobName := bd.jobName, build := bd.build, event := bd.event, buildLink := bd.buildLink }) := by
                      unfold _notify
                      simp only [hv', hk', normalizeSlack_idem, statuses_of_normalizeSlack,
                        hcon, hrend, ite_true, ite_false, if_true]
                    rw [h1]
                    exact h2
  · have h1 : _notify config bd = (NotifyResult.skipped, bd) := by
      unfold _notify
      simp [hv]
    rw [h1]
    exact h1

end NotificationsSlack
